import Mathlib

/-!
Verification of `interactive_routes_map.py` (qwezyid/Tim): a shallow
embedding in Lean 4 of the route-filtering, geocoding and map-rendering
logic, together with proofs of the specified properties.

Modelling conventions:
* a pandas dataframe row becomes a `Route` record; the dataframe is a
  `List Route` in row order;
* prices (`avg_price` column, Python floats) are `Rat`;
* Python's `int()` truncation toward zero is `intTrunc`;
* a Python dict is an association list (`alookup` is `dict.get`);
* the network is an oracle `String → NetOutcome`; the body of
  `geocode_city` is a total function of the outcome, with the `except`
  branch modelled by `NetOutcome.error`;
* `st.cache_data` memoization is explicit cache state threaded through
  the functions (`CacheC` for `geocode_city`, keyed by city name;
  `cacheA` for `geocode_all_cities`, keyed by the dataframe);
* `time.sleep(0.1)` and the execution (vs cache hit) of a geocode are
  recorded as a `Bool` flag and a counter.
-/

namespace RoutesMap

/-- One row of `unique_routes_avg_price.csv`: columns `route`,
`from_city`, `to_city`, `avg_price`. -/
structure Route where
  route : String
  from_city : String
  to_city : String
  avg_price : Rat
deriving DecidableEq

/-- Association-list lookup with first-match-wins: Python `dict.get`. -/
def alookup {α β : Type} [DecidableEq α] (k : α) : List (α × β) → Option β
  | [] => none
  | (a, b) :: rest => if a = k then some b else alookup k rest

/-- Python `int()` on a rational: truncation toward zero
(`int(1000.5) = 1000`, `int(-1.5) = -1`); `Int.tdiv` rounds toward zero
and the denominator of a `Rat` is positive. -/
def intTrunc (q : Rat) : Int :=
  q.num.tdiv (q.den : Int)

/-- `df['avg_price'].min()` over a nonempty table (0 for the empty
table, which `main` never reaches with an empty CSV filter source). -/
def minPrice : List Route → Rat
  | [] => 0
  | r :: rs => rs.foldl (fun acc x => min acc x.avg_price) r.avg_price

/-- `df['avg_price'].max()`. -/
def maxPrice : List Route → Rat
  | [] => 0
  | r :: rs => rs.foldl (fun acc x => max acc x.avg_price) r.avg_price

/-- `min_price = int(df['avg_price'].min())`,
`max_price = int(df['avg_price'].max())`: the bounds handed to the
price slider in `main`. -/
def sliderBounds (df : List Route) : Int × Int :=
  (intTrunc (minPrice df), intTrunc (maxPrice df))

/-- The filtering block of `main`: the price-range mask
`(avg_price >= lo) & (avg_price <= hi)`, then
`filtered_df[filtered_df['from_city'].isin(selected_from_cities)]`
only when `selected_from_cities` is non-empty (Python truthiness of a
list), then the analogous `to_city` filter. -/
def filteredDf (df : List Route) (lo hi : Int) (fromSel toSel : List String) :
    List Route :=
  let step1 := df.filter fun r =>
    decide ((lo : Rat) ≤ r.avg_price) && decide (r.avg_price ≤ (hi : Rat))
  let step2 := if fromSel.isEmpty then step1
    else step1.filter fun r => fromSel.contains r.from_city
  if toSel.isEmpty then step2
  else step2.filter fun r => toSel.contains r.to_city

/-! ### Geocoding (`geocode_city`, `geocode_all_cities`) -/

/-- The first element of the JSON array returned by Nominatim, as seen by
`geocode_city`: `float(data[0]['lat'])` may raise (missing key or
unparseable string), modelled by `none` in the corresponding field. -/
structure GeoEntry where
  lat : Option Rat
  lon : Option Rat
deriving DecidableEq

/-- Everything the `try` body of `geocode_city` can observe of the
network: either an exception somewhere in the request (or in
`response.json()`), or a response with a status code and a parsed JSON
array. -/
inductive NetOutcome where
  | error : NetOutcome
  | response (status : Nat) (data : List GeoEntry) : NetOutcome
deriving DecidableEq

/-- Body of `geocode_city` (the uncached function): result pair plus a
flag recording whether `time.sleep(0.1)` ran on this call.  The sleep
statement sits after the `if response.status_code == 200:` block, so it
runs exactly when the body falls through to `return None, None` without
an exception; a successful lookup returns before it, and the `except`
branch bypasses it. -/
def geocode_city : NetOutcome → (Option Rat × Option Rat) × Bool
  | .error => ((none, none), false)
  | .response status data =>
    if status = 200 then
      match data with
      | [] => ((none, none), true)
      | e :: _ =>
        match e.lat, e.lon with
        | some la, some lo => ((some la, some lo), false)
        | _, _ => ((none, none), false)
    else ((none, none), true)

/-- Per-city memo cache of `@st.cache_data geocode_city`. -/
abbrev CacheC : Type := List (String × (Option Rat × Option Rat))

/-- `CoordMap` is the `coordinates` dict built by `geocode_all_cities`. -/
abbrev CoordMap : Type := List (String × (Rat × Rat))

/-- Calling the cached `geocode_city(city)`: on a cache hit the stored
pair is returned with no execution and no sleep; on a miss the body runs
once and its result is stored.  Returns
(result, cache, executions performed, slept). -/
def geocodeCityCached (w : String → NetOutcome) (cache : CacheC)
    (city : String) : (Option Rat × Option Rat) × CacheC × Nat × Bool :=
  match alookup city cache with
  | some v => (v, cache, 0, false)
  | none =>
    let p := geocode_city (w city)
    (p.1, (city, p.1) :: cache, 1, p.2)

/-- Python truthiness of `lat` (resp. `lon`) in
`if lat and lon:` — `None` and `0.0` are falsy. -/
def truthyOpt : Option Rat → Bool
  | none => false
  | some q => q != 0

/-- `set(df['from_city'].tolist() + df['to_city'].tolist())`: the
distinct city names of the table (iteration order of a Python set is
unspecified; the claims proved below do not depend on it). -/
def citiesOf (df : List Route) : List String :=
  (df.map Route.from_city ++ df.map Route.to_city).dedup

/-- The loop of `geocode_all_cities`: resolve each city through the
cached `geocode_city` and keep it in `coordinates` only when
`if lat and lon:` holds.  Returns (coordinates, cache, executions). -/
def geocodeAllLoop (w : String → NetOutcome) :
    List String → CacheC → CoordMap × CacheC × Nat
  | [], cache => ([], cache, 0)
  | city :: rest, cache =>
    let c := geocodeCityCached w cache city
    let rest' := geocodeAllLoop w rest c.2.1
    let m := if truthyOpt c.1.1 && truthyOpt c.1.2 then
        (city, (c.1.1.getD 0, c.1.2.getD 0)) :: rest'.1
      else rest'.1
    (m, rest'.2.1, c.2.2.1 + rest'.2.2)

/-- Body of `geocode_all_cities(df)` (the uncached function). -/
def geocode_all_cities (w : String → NetOutcome) (df : List Route)
    (cache : CacheC) : CoordMap × CacheC × Nat :=
  geocodeAllLoop w (citiesOf df) cache

/-- The result `geocode_city` (cached) yields for `city` against memo
state `cache`: the cached pair if present, otherwise what the body
computes.  Used to characterise the map `geocode_all_cities` returns. -/
def resolveWith (w : String → NetOutcome) (cache : CacheC)
    (city : String) : Option Rat × Option Rat :=
  (alookup city cache).getD (geocode_city (w city)).1

/-! ### Map rendering (`create_map`) -/

/-- Marker colour: origin cities are drawn green, destinations red. -/
inductive Style where
  | origin : Style
  | destination : Style
deriving DecidableEq

/-- One `folium.CircleMarker` added to the map. -/
structure Marker where
  city : String
  loc : Rat × Rat
  style : Style
deriving DecidableEq

/-- One `folium.PolyLine` with its tooltip data. -/
structure Connector where
  route : String
  price : Rat
  from_city : String
  to_city : String
  from_loc : Rat × Rat
  to_loc : Rat × Rat
deriving DecidableEq

/-- The connector `create_map` draws for a row once both lookups
succeeded (locations defaulted, used only under `isSome`). -/
def connectorOf (coords : CoordMap) (r : Route) : Connector :=
  ⟨r.route, r.avg_price, r.from_city, r.to_city,
    (alookup r.from_city coords).getD (0, 0),
    (alookup r.to_city coords).getD (0, 0)⟩

/-- The row loop of `create_map`: `coordinates.get` on both endpoints,
`if from_coords and to_coords:` (a present 2-tuple is always truthy, so
the test is presence of both), then the polyline, then the two
`added_cities`-guarded markers, origin first. -/
def createMapLoop (coords : CoordMap) :
    List Route → List String → List Connector × List Marker
  | [], _ => ([], [])
  | r :: rs, added =>
    match alookup r.from_city coords, alookup r.to_city coords with
    | some fc, some tc =>
      let ms1 : List Marker :=
        if added.contains r.from_city then []
        else [Marker.mk r.from_city fc .origin]
      let added1 :=
        if added.contains r.from_city then added else r.from_city :: added
      let ms2 : List Marker :=
        if added1.contains r.to_city then []
        else [Marker.mk r.to_city tc .destination]
      let added2 :=
        if added1.contains r.to_city then added1 else r.to_city :: added1
      let rest := createMapLoop coords rs added2
      (⟨r.route, r.avg_price, r.from_city, r.to_city, fc, tc⟩ :: rest.1,
        ms1 ++ (ms2 ++ rest.2))
    | _, _ => createMapLoop coords rs added

/-- `create_map(filtered_df, coordinates)`: the polylines and markers it
adds to the folium map, in drawing order (`added_cities` starts empty). -/
def create_map (filtered : List Route) (coords : CoordMap) :
    List Connector × List Marker :=
  createMapLoop coords filtered []

/-- True when both endpoints of the route are present in `coordinates`:
the rendering condition of `create_map`. -/
def bothResolved (coords : CoordMap) (r : Route) : Bool :=
  (alookup r.from_city coords).isSome && (alookup r.to_city coords).isSome

/-- The sequence of (city, role) occurrences over the rendered rows, in
encounter order: origin then destination of each row that renders.
Stated from the spec's words ("first role encountered wins") to compare
against what `create_map` draws. -/
def roleSeq (filtered : List Route) (coords : CoordMap) :
    List (String × Style) :=
  (filtered.filter (bothResolved coords)).flatMap fun r =>
    [(r.from_city, Style.origin), (r.to_city, Style.destination)]

/-- First-occurrence deduplication of a (city, role) sequence given the
set of cities already marked.  Stated from the spec's words: the
reference against which the marker list of `create_map` is compared. -/
def dedupFirst : List (String × Style) → List String → List (String × Style)
  | [], _ => []
  | (c, s) :: rest, seen =>
    if seen.contains c then dedupFirst rest seen
    else (c, s) :: dedupFirst rest (c :: seen)

/-- The (city, style) content of a marker. -/
def markerPair (m : Marker) : String × Style := (m.city, m.style)

/-! ### Session control (`main`) -/

/-- `st.session_state`: `map_built` and the optional `coordinates`
(deleted by reset, hence `Option`). -/
structure Session where
  map_built : Bool
  coordinates : Option CoordMap
deriving DecidableEq

/-- Whole interpreter state seen by one run of the script: the session
plus the two process-wide `st.cache_data` memo caches. -/
structure AppState where
  sess : Session
  cacheA : List (List Route × CoordMap)
  cacheC : CacheC

/-- Fresh session: `map_built` initialised to `False`, no coordinates,
empty memo caches. -/
def initState : AppState := ⟨⟨false, none⟩, [], []⟩

/-- The cached `geocode_all_cities(filtered_df)` call: `@st.cache_data`
keyed by the dataframe argument returns the memoised map without
re-running the body.  Returns (coordinates, state, executions). -/
def geocodeAllCached (w : String → NetOutcome) (st : AppState)
    (df : List Route) : CoordMap × AppState × Nat :=
  match alookup df st.cacheA with
  | some m => (m, st, 0)
  | none =>
    let g := geocode_all_cities w df st.cacheC
    (g.1, { st with cacheA := (df, g.1) :: st.cacheA, cacheC := g.2.1 },
      g.2.2)

/-- The build branch of `main`: when the map is not yet built, geocode
the filtered table and store the result in the session; otherwise reuse
`st.session_state.coordinates` as is. -/
def buildAction (w : String → NetOutcome) (st : AppState)
    (df : List Route) : AppState × Nat :=
  if st.sess.map_built then (st, 0)
  else
    let g := geocodeAllCached w st df
    ({ g.2.1 with sess := ⟨true, some g.1⟩ }, g.2.2)

/-- The reset button: `st.session_state.map_built = False` and
`del st.session_state.coordinates`.  The `st.cache_data` caches are
untouched. -/
def resetAction (st : AppState) : AppState :=
  { st with sess := ⟨false, none⟩ }

/-- What one run of the tail of `main` reports: whether the "no routes"
warning was shown, the map handed to `st_folium` (if any), and how many
geocode executions were performed. -/
structure MainResult where
  warned : Bool
  renderedMap : Option (List Connector × List Marker)
  executions : Nat
deriving DecidableEq

/-- The tail of `main` after `filtered_df` is computed: the
`if len(filtered_df) > 0:` guard, the build-or-already-built branch
(geocode if needed, then `create_map` on the session coordinates and
display), the reset button, and the `st.warning` else-branch. -/
def mainStep (w : String → NetOutcome) (st : AppState)
    (filtered : List Route) (buildClicked resetClicked : Bool) :
    AppState × MainResult :=
  if filtered.length > 0 then
    let b : AppState × Nat × Option (List Connector × List Marker) :=
      if buildClicked || st.sess.map_built then
        let b' := buildAction w st filtered
        (b'.1, b'.2,
          some (create_map filtered (b'.1.sess.coordinates.getD [])))
      else (st, 0, none)
    let st2 := if resetClicked then resetAction b.1 else b.1
    (st2, ⟨false, b.2.2, b.2.1⟩)
  else (st, ⟨true, none, 0⟩)

/-! ### Properties of the filter (claims C1, C5) -/

theorem foldl_min_le_init (rs : List Route) (a : Rat) :
    rs.foldl (fun acc x => min acc x.avg_price) a ≤ a := by
  induction rs generalizing a with
  | nil => exact le_refl a
  | cons x xs ih =>
    exact le_trans (ih (min a x.avg_price)) (min_le_left _ _)

theorem foldl_min_le_mem (rs : List Route) (a : Rat) (r : Route)
    (hr : r ∈ rs) : rs.foldl (fun acc x => min acc x.avg_price) a ≤ r.avg_price := by
  induction rs generalizing a with
  | nil => cases hr
  | cons x xs ih =>
    rcases List.mem_cons.mp hr with h | h
    · subst h
      exact le_trans (foldl_min_le_init xs _) (min_le_right _ _)
    · exact ih _ h

theorem foldl_min_choice (rs : List Route) (a : Rat) :
    rs.foldl (fun acc x => min acc x.avg_price) a = a ∨
      ∃ x ∈ rs, rs.foldl (fun acc x => min acc x.avg_price) a = x.avg_price := by
  induction rs generalizing a with
  | nil => exact Or.inl rfl
  | cons x xs ih =>
    rcases ih (min a x.avg_price) with h | ⟨y, hy, h⟩
    · rcases min_choice a x.avg_price with hm | hm
      · exact Or.inl (by simpa [hm] using h)
      · exact Or.inr ⟨x, List.mem_cons_self .., by simpa [hm] using h⟩
    · exact Or.inr ⟨y, List.mem_cons_of_mem _ hy, h⟩

theorem foldl_max_init_le (rs : List Route) (a : Rat) :
    a ≤ rs.foldl (fun acc x => max acc x.avg_price) a := by
  induction rs generalizing a with
  | nil => exact le_refl a
  | cons x xs ih =>
    exact le_trans (le_max_left _ _) (ih (max a x.avg_price))

theorem foldl_max_mem_le (rs : List Route) (a : Rat) (r : Route)
    (hr : r ∈ rs) : r.avg_price ≤ rs.foldl (fun acc x => max acc x.avg_price) a := by
  induction rs generalizing a with
  | nil => cases hr
  | cons x xs ih =>
    rcases List.mem_cons.mp hr with h | h
    · subst h
      exact le_trans (le_max_right _ _) (foldl_max_init_le xs _)
    · exact ih _ h

theorem foldl_max_choice (rs : List Route) (a : Rat) :
    rs.foldl (fun acc x => max acc x.avg_price) a = a ∨
      ∃ x ∈ rs, rs.foldl (fun acc x => max acc x.avg_price) a = x.avg_price := by
  induction rs generalizing a with
  | nil => exact Or.inl rfl
  | cons x xs ih =>
    rcases ih (max a x.avg_price) with h | ⟨y, hy, h⟩
    · rcases max_choice a x.avg_price with hm | hm
      · exact Or.inl (by simpa [hm] using h)
      · exact Or.inr ⟨x, List.mem_cons_self .., by simpa [hm] using h⟩
    · exact Or.inr ⟨y, List.mem_cons_of_mem _ hy, h⟩

theorem minPrice_le (df : List Route) (r : Route) (hr : r ∈ df) :
    minPrice df ≤ r.avg_price := by
  cases df with
  | nil => cases hr
  | cons x xs =>
    rcases List.mem_cons.mp hr with h | h
    · subst h; exact foldl_min_le_init xs _
    · exact foldl_min_le_mem xs _ _ h

theorem le_maxPrice (df : List Route) (r : Route) (hr : r ∈ df) :
    r.avg_price ≤ maxPrice df := by
  cases df with
  | nil => cases hr
  | cons x xs =>
    rcases List.mem_cons.mp hr with h | h
    · subst h; exact foldl_max_init_le xs _
    · exact foldl_max_mem_le xs _ _ h

theorem minPrice_mem (df : List Route) (h : df ≠ []) :
    ∃ r ∈ df, minPrice df = r.avg_price := by
  cases df with
  | nil => exact absurd rfl h
  | cons x xs =>
    rcases foldl_min_choice xs x.avg_price with hc | ⟨y, hy, hc⟩
    · exact ⟨x, List.mem_cons_self .., hc⟩
    · exact ⟨y, List.mem_cons_of_mem _ hy, hc⟩

theorem maxPrice_mem (df : List Route) (h : df ≠ []) :
    ∃ r ∈ df, maxPrice df = r.avg_price := by
  cases df with
  | nil => exact absurd rfl h
  | cons x xs =>
    rcases foldl_max_choice xs x.avg_price with hc | ⟨y, hy, hc⟩
    · exact ⟨x, List.mem_cons_self .., hc⟩
    · exact ⟨y, List.mem_cons_of_mem _ hy, hc⟩

theorem intTrunc_intCast (n : Int) : intTrunc ((n : Int) : Rat) = n := by
  simp [intTrunc, Rat.intCast_num, Rat.intCast_den]

/-- Claim C1: the filtering block of `main` keeps exactly the routes with
`price_min <= avg_price <= price_max` (both bounds inclusive) whose
origin is in the origin selection (or the selection is empty) and whose
destination is in the destination selection (or it is empty), as one
stable filter of the input in its original order. -/
theorem filteredDf_eq_filter (df : List Route) (lo hi : Int)
    (fromSel toSel : List String) :
    filteredDf df lo hi fromSel toSel = df.filter fun r =>
      decide ((lo : Rat) ≤ r.avg_price) && decide (r.avg_price ≤ (hi : Rat))
        && (fromSel.isEmpty || fromSel.contains r.from_city)
        && (toSel.isEmpty || toSel.contains r.to_city) := by
  unfold filteredDf
  cases fromSel <;> cases toSel <;>
    simp [List.filter_filter, Bool.and_assoc, Bool.and_comm, Bool.and_left_comm]

/-- Claim C5 (amended): the slider bounds are the `int()` truncations of
the observed minimum and maximum `avg_price`; when every price in the
table is an integer they coincide with the observed minimum and maximum,
and the default full-range selection keeps every route. -/
theorem sliderBounds_default_keeps_all (df : List Route) (h1 : df ≠ [])
    (h2 : ∀ r ∈ df, ∃ n : Int, r.avg_price = (n : Rat)) :
    ((sliderBounds df).1 : Rat) = minPrice df ∧
      ((sliderBounds df).2 : Rat) = maxPrice df ∧
      filteredDf df (sliderBounds df).1 (sliderBounds df).2 [] [] = df := by
  obtain ⟨rmin, hrmin, hmin⟩ := minPrice_mem df h1
  obtain ⟨rmax, hrmax, hmax⟩ := maxPrice_mem df h1
  obtain ⟨nmin, hnmin⟩ := h2 rmin hrmin
  obtain ⟨nmax, hnmax⟩ := h2 rmax hrmax
  have hlo : ((sliderBounds df).1 : Rat) = minPrice df := by
    show ((intTrunc (minPrice df) : Int) : Rat) = minPrice df
    rw [hmin, hnmin, intTrunc_intCast]
  have hhi : ((sliderBounds df).2 : Rat) = maxPrice df := by
    show ((intTrunc (maxPrice df) : Int) : Rat) = maxPrice df
    rw [hmax, hnmax, intTrunc_intCast]
  refine ⟨hlo, hhi, ?_⟩
  rw [filteredDf_eq_filter]
  rw [List.filter_eq_self]
  intro r hr
  simp only [List.isEmpty_nil, Bool.true_or, Bool.and_true]
  rw [hlo, hhi]
  simp [minPrice_le df r hr, le_maxPrice df r hr]

/-- Witness for C5 (amended): a concrete all-integer table where the
bounds equal the observed min/max and the default selection keeps every
route. -/
theorem sliderBounds_default_keeps_all_witness :
    ((sliderBounds [Route.mk "r1" "A" "B" 100, Route.mk "r2" "B" "A" 250]).1 : Rat) =
        minPrice [Route.mk "r1" "A" "B" 100, Route.mk "r2" "B" "A" 250] ∧
      ((sliderBounds [Route.mk "r1" "A" "B" 100, Route.mk "r2" "B" "A" 250]).2 : Rat) =
        maxPrice [Route.mk "r1" "A" "B" 100, Route.mk "r2" "B" "A" 250] ∧
      filteredDf [Route.mk "r1" "A" "B" 100, Route.mk "r2" "B" "A" 250]
          (sliderBounds [Route.mk "r1" "A" "B" 100, Route.mk "r2" "B" "A" 250]).1
          (sliderBounds [Route.mk "r1" "A" "B" 100, Route.mk "r2" "B" "A" 250]).2 [] [] =
        [Route.mk "r1" "A" "B" 100, Route.mk "r2" "B" "A" 250] :=
  sliderBounds_default_keeps_all _ (by decide)
    (by
      intro r hr
      rcases List.mem_cons.mp hr with h | h
      · exact ⟨100, by rw [h]; norm_num⟩
      · rcases List.mem_cons.mp h with h' | h'
        · exact ⟨250, by rw [h']; norm_num⟩
        · cases h')

/-! ### Properties of the geocoder (claims C4, C7, C9) -/

/-- Claim C4 (amended): the rate-limit sleep runs exactly when the body
of `geocode_city` falls through to `return None, None` without raising —
a non-success status, or a success status with an empty result array.  A
call that returns coordinates, and a call that ends in the `except`
branch, skip the sleep. -/
theorem geocode_city_sleep_iff (net : NetOutcome) :
    (geocode_city net).2 = true ↔
      ∃ s d, net = NetOutcome.response s d ∧ (s ≠ 200 ∨ d = []) := by
  cases net with
  | error => simp [geocode_city]
  | response s d =>
    by_cases hs : s = 200
    · subst hs
      cases d with
      | nil =>
        simp [geocode_city]
        exact ⟨200, [], ⟨rfl, rfl⟩, Or.inr rfl⟩
      | cons e rest =>
        cases hl : e.lat <;> cases ho : e.lon <;>
          simp [geocode_city, hl, ho]
    · cases d with
      | nil =>
        simp [geocode_city, hs]
        exact ⟨s, [], ⟨rfl, rfl⟩, Or.inl hs⟩
      | cons e rest =>
        simp [geocode_city, hs]
        exact ⟨s, e :: rest, ⟨rfl, rfl⟩, Or.inl hs⟩

/-- Counterexample to C4 as stated: an uncached call that resolves
successfully (one execution is performed) returns its coordinates
without running the sleep. -/
theorem geocode_city_sleep_cex :
    (geocodeCityCached
        (fun _ => NetOutcome.response 200 [GeoEntry.mk (some 55) (some 37)])
        [] "Moscow").1 = (some 55, some 37) ∧
      (geocodeCityCached
        (fun _ => NetOutcome.response 200 [GeoEntry.mk (some 55) (some 37)])
        [] "Moscow").2.2 = (1, false) := by
  constructor
  · decide
  · decide

theorem alookup_cons {α β : Type} [DecidableEq α] (k a : α) (b : β)
    (l : List (α × β)) :
    alookup k ((a, b) :: l) = if a = k then some b else alookup k l := rfl

theorem geocodeCityCached_fst (w : String → NetOutcome) (cache : CacheC)
    (city : String) :
    (geocodeCityCached w cache city).1 = resolveWith w cache city := by
  unfold geocodeCityCached resolveWith
  cases h : alookup city cache <;> simp [h]

theorem geocodeCityCached_resolveWith (w : String → NetOutcome)
    (cache : CacheC) (city city' : String) :
    resolveWith w (geocodeCityCached w cache city).2.1 city' =
      resolveWith w cache city' := by
  unfold geocodeCityCached
  cases h : alookup city cache with
  | some v => simp
  | none =>
    simp only
    unfold resolveWith
    rw [alookup_cons]
    by_cases hc : city = city'
    · subst hc; simp [h]
    · simp [hc]

theorem geocodeAllLoop_fst_cons (w : String → NetOutcome) (c : String)
    (rest : List String) (cache : CacheC) :
    (geocodeAllLoop w (c :: rest) cache).1 =
      if (truthyOpt (resolveWith w cache c).1
          && truthyOpt (resolveWith w cache c).2) = true then
        (c, ((resolveWith w cache c).1.getD 0,
            (resolveWith w cache c).2.getD 0)) ::
          (geocodeAllLoop w rest (geocodeCityCached w cache c).2.1).1
      else (geocodeAllLoop w rest (geocodeCityCached w cache c).2.1).1 := by
  simp only [geocodeAllLoop, geocodeCityCached_fst]

/-- Characterisation of the `coordinates` dict a run of the
`geocode_all_cities` loop returns: a city is present exactly when it is
among the iterated cities and its resolved pair passes the
`if lat and lon:` truthiness test; the stored value is that pair. -/
theorem geocodeAllLoop_lookup (w : String → NetOutcome)
    (cities : List String) (cache : CacheC) (city : String) :
    alookup city (geocodeAllLoop w cities cache).1 =
      if cities.contains city ∧
          (truthyOpt (resolveWith w cache city).1
            && truthyOpt (resolveWith w cache city).2) = true then
        some ((resolveWith w cache city).1.getD 0,
          (resolveWith w cache city).2.getD 0)
      else none := by
  induction cities generalizing cache with
  | nil => simp [geocodeAllLoop, alookup]
  | cons c rest ih =>
    rw [geocodeAllLoop_fst_cons]
    by_cases htr : (truthyOpt (resolveWith w cache c).1
        && truthyOpt (resolveWith w cache c).2) = true
    · rw [if_pos htr]
      by_cases hc : c = city
      · subst hc
        rw [alookup_cons, if_pos rfl]
        simp [htr]
      · rw [alookup_cons, if_neg hc, ih, geocodeCityCached_resolveWith]
        simp [List.contains_cons, hc, Ne.symm hc]
    · rw [if_neg htr, ih, geocodeCityCached_resolveWith]
      by_cases hc : c = city
      · subst hc
        simp [htr]
      · simp [List.contains_cons, hc, Ne.symm hc]

/-- Claim C7: the body of `geocode_city` is total — a network error, a
non-success response, or an empty result array all yield the
`(None, None)` pair rather than an exception, and a previously uncached
city with such an outcome is absent from the map that
`geocode_all_cities` returns. -/
theorem geocode_city_failure_none (w : String → NetOutcome)
    (cache : CacheC) (df : List Route) (city : String)
    (hfail : w city = NetOutcome.error ∨
      (∃ s d, w city = NetOutcome.response s d ∧ s ≠ 200) ∨
      w city = NetOutcome.response 200 [])
    (hmiss : alookup city cache = none) :
    (geocode_city (w city)).1 = (none, none) ∧
      alookup city (geocode_all_cities w df cache).1 = none := by
  have hbody : (geocode_city (w city)).1 = (none, none) := by
    rcases hfail with h | ⟨s, d, h, hs⟩ | h
    · rw [h]; rfl
    · rw [h]; simp [geocode_city, hs]
    · rw [h]; rfl
  refine ⟨hbody, ?_⟩
  unfold geocode_all_cities
  rw [geocodeAllLoop_lookup]
  have hres : resolveWith w cache city = (none, none) := by
    unfold resolveWith
    rw [hmiss, hbody]
    rfl
  rw [hres]
  simp [truthyOpt]

/-- Witness for C7: a concrete 500-status outcome yields `(None, None)`
and leaves the city out of the coordinate map. -/
theorem geocode_city_failure_none_witness :
    (geocode_city ((fun _ => NetOutcome.response 500 []) "A")).1 =
        (none, none) ∧
      alookup "A"
        (geocode_all_cities (fun _ => NetOutcome.response 500 [])
          [Route.mk "r" "A" "B" 1] []).1 = none :=
  geocode_city_failure_none (fun _ => NetOutcome.response 500 []) []
    [Route.mk "r" "A" "B" 1] "A"
    (Or.inr (Or.inl ⟨500, [], rfl, by decide⟩)) rfl

/-- Claim C9: the success test of `geocode_all_cities` is the Python
truthiness `if lat and lon:`, so a city whose resolved latitude or
longitude is exactly `0.0` is excluded from the returned coordinate
mapping even though a result was present. -/
theorem zero_coordinate_excluded (w : String → NetOutcome)
    (df : List Route) (cache : CacheC) (city : String) (la lo : Rat)
    (h : resolveWith w cache city = (some la, some lo))
    (hz : la = 0 ∨ lo = 0) :
    alookup city (geocode_all_cities w df cache).1 = none := by
  unfold geocode_all_cities
  rw [geocodeAllLoop_lookup, h]
  rcases hz with hz | hz <;> subst hz <;> simp [truthyOpt]

/-- Witness for C9: a city resolving to latitude `0` (longitude `37`)
is absent from the coordinate map. -/
theorem zero_coordinate_excluded_witness :
    alookup "Z"
      (geocode_all_cities
        (fun _ => NetOutcome.response 200 [GeoEntry.mk (some 0) (some 37)])
        [Route.mk "r" "Z" "B" 10] []).1 = none :=
  zero_coordinate_excluded _ _ _ _ 0 37 rfl (Or.inl rfl)

/-! ### Properties of the renderer (claims C3, C6, C10) -/

theorem createMapLoop_connectors (coords : CoordMap) (rs : List Route) :
    ∀ added, (createMapLoop coords rs added).1 =
      (rs.filter (bothResolved coords)).map (connectorOf coords) := by
  induction rs with
  | nil => intro added; rfl
  | cons r rs ih =>
    intro added
    cases hf : alookup r.from_city coords with
    | none =>
      have hb : bothResolved coords r = false := by simp [bothResolved, hf]
      simp [createMapLoop, hf, hb, ih]
    | some fc =>
      cases ht : alookup r.to_city coords with
      | none =>
        have hb : bothResolved coords r = false := by
          simp [bothResolved, hf, ht]
        simp [createMapLoop, hf, ht, hb, ih]
      | some tc =>
        have hb : bothResolved coords r = true := by
          simp [bothResolved, hf, ht]
        simp [createMapLoop, hf, ht, hb, ih, connectorOf]

/-- Claim C3: a route draws a polyline exactly when both endpoint
cities are present in the coordinate dict: the connectors are the
stable-filtered rendered routes, so an unresolved route is silently
dropped and does not disturb any other route's connector. -/
theorem create_map_connectors (filtered : List Route) (coords : CoordMap) :
    (create_map filtered coords).1 =
      (filtered.filter (bothResolved coords)).map (connectorOf coords) :=
  createMapLoop_connectors coords filtered []

theorem createMapLoop_markers (coords : CoordMap) (rs : List Route) :
    ∀ added, ((createMapLoop coords rs added).2).map markerPair =
      dedupFirst (roleSeq rs coords) added := by
  induction rs with
  | nil => intro added; rfl
  | cons r rs ih =>
    intro added
    cases hf : alookup r.from_city coords with
    | none =>
      have hb : bothResolved coords r = false := by simp [bothResolved, hf]
      have hrole : roleSeq (r :: rs) coords = roleSeq rs coords := by
        simp [roleSeq, hb]
      rw [hrole]
      simp [createMapLoop, hf, ih]
    | some fc =>
      cases ht : alookup r.to_city coords with
      | none =>
        have hb : bothResolved coords r = false := by
          simp [bothResolved, hf, ht]
        have hrole : roleSeq (r :: rs) coords = roleSeq rs coords := by
          simp [roleSeq, hb]
        rw [hrole]
        simp [createMapLoop, hf, ht, ih]
      | some tc =>
        have hb : bothResolved coords r = true := by
          simp [bothResolved, hf, ht]
        have hrole : roleSeq (r :: rs) coords =
            (r.from_city, Style.origin) :: (r.to_city, Style.destination) ::
              roleSeq rs coords := by
          simp [roleSeq, hb]
        rw [hrole]
        by_cases h1 : r.from_city ∈ added
        · by_cases h2 : r.to_city ∈ added
          · simp [createMapLoop, hf, ht, h1, h2, dedupFirst, ih, markerPair]
          · simp [createMapLoop, hf, ht, h1, h2, dedupFirst, ih, markerPair]
        · by_cases h2 : r.to_city = r.from_city ∨ r.to_city ∈ added
          · simp [createMapLoop, hf, ht, h1, h2, dedupFirst, ih, markerPair]
          · simp [createMapLoop, hf, ht, h1, h2, dedupFirst, ih, markerPair]

theorem dedupFirst_countP (l : List (String × Style)) :
    ∀ (seen : List String) (c : String),
      (dedupFirst l seen).countP (fun p => p.1 == c) ≤
        (if c ∈ seen then 0 else 1) := by
  induction l with
  | nil => intro seen c; simp [dedupFirst]
  | cons q l ih =>
    intro seen c
    obtain ⟨a, s⟩ := q
    by_cases h1 : a ∈ seen
    · simpa [dedupFirst, h1] using ih seen c
    · by_cases hac : a = c
      · subst hac
        have hz : (dedupFirst l (a :: seen)).countP (fun p => p.1 == a) = 0 :=
          Nat.le_zero.mp (by simpa using ih (a :: seen) a)
        simp [dedupFirst, h1, List.countP_cons, hz]
      · have htail := ih (a :: seen) c
        have hiff : c ∈ a :: seen ↔ c ∈ seen := by
          constructor
          · intro hmem
            rcases List.mem_cons.mp hmem with hmem | hmem
            · exact absurd hmem.symm hac
            · exact hmem
          · exact List.mem_cons_of_mem a
        simp only [hiff] at htail
        have hb : ((a, s).1 == c) = false := by simp [hac]
        simpa [dedupFirst, h1, List.countP_cons, hb] using htail

theorem dedupFirst_find (l : List (String × Style)) :
    ∀ (seen : List String) (p : String × Style), p ∈ dedupFirst l seen →
      p.1 ∉ seen ∧ l.find? (fun q => q.1 == p.1) = some p := by
  induction l with
  | nil => intro seen p h; simp [dedupFirst] at h
  | cons q l ih =>
    intro seen p h
    obtain ⟨a, s⟩ := q
    by_cases h1 : a ∈ seen
    · rw [dedupFirst, if_pos (by simpa using h1)] at h
      obtain ⟨hs, hf⟩ := ih seen p h
      have hne : ¬ a = p.1 := fun he => hs (he ▸ h1)
      refine ⟨hs, ?_⟩
      rw [List.find?_cons_of_neg _ (by simp [hne]), hf]
    · rw [dedupFirst, if_neg (by simpa using h1)] at h
      rcases List.mem_cons.mp h with he | hmem
      · subst he
        exact ⟨h1, List.find?_cons_of_pos _ (by simp)⟩
      · obtain ⟨hs, hf⟩ := ih (a :: seen) p hmem
        have hna : ¬ a = p.1 := fun he =>
          hs (he ▸ List.mem_cons_self ..)
        refine ⟨fun hmem' => hs (List.mem_cons_of_mem a hmem'), ?_⟩
        rw [List.find?_cons_of_neg _ (by simp [hna]), hf]

/-- Claim C6: `create_map` draws at most one marker per city, and the
marker's style is the first role in which the city occurs in iteration
order over the rendered routes — a city first drawn as an origin keeps
the origin style even when it later occurs as a destination. -/
theorem create_map_marker_first_role (filtered : List Route)
    (coords : CoordMap) :
    (∀ c : String,
        ((create_map filtered coords).2).countP (fun m => m.city == c) ≤ 1) ∧
      ∀ m ∈ (create_map filtered coords).2,
        (roleSeq filtered coords).find? (fun p => p.1 == m.city) =
          some (m.city, m.style) := by
  have hmk := createMapLoop_markers coords filtered []
  constructor
  · intro c
    have hcount : ((create_map filtered coords).2).countP (fun m => m.city == c) =
        (((create_map filtered coords).2).map markerPair).countP
          (fun p => p.1 == c) := by
      rw [List.countP_map]; rfl
    rw [hcount]
    show ((createMapLoop coords filtered []).2.map markerPair).countP
      (fun p => p.1 == c) ≤ 1
    rw [hmk]
    simpa using dedupFirst_countP (roleSeq filtered coords) [] c
  · intro m hm
    have hmem : markerPair m ∈ dedupFirst (roleSeq filtered coords) [] := by
      rw [← hmk]
      exact List.mem_map_of_mem _ hm
    exact (dedupFirst_find _ _ _ hmem).2

/-- Witness for C6 on a concrete rendered set: city A occurs first as an
origin and keeps the origin style. -/
theorem create_map_marker_first_role_witness :
    (roleSeq [Route.mk "r1" "A" "B" 100, Route.mk "r2" "B" "A" 200]
        [("A", ((1 : Rat), (2 : Rat))), ("B", ((3 : Rat), (4 : Rat)))]).find?
      (fun p => p.1 == "A") = some ("A", Style.origin) :=
  (create_map_marker_first_role
      [Route.mk "r1" "A" "B" 100, Route.mk "r2" "B" "A" 200]
      [("A", ((1 : Rat), (2 : Rat))), ("B", ((3 : Rat), (4 : Rat)))]).2
    (Marker.mk "A" ((1 : Rat), (2 : Rat)) Style.origin) (by decide)

/-- Claim C10: every marker `create_map` draws belongs to a route of the
filtered set whose two endpoints both resolved; a city whose routes all
have an unresolved partner receives no marker. -/
theorem marker_requires_rendered_route (filtered : List Route)
    (coords : CoordMap) (m : Marker)
    (hm : m ∈ (create_map filtered coords).2) :
    ∃ r ∈ filtered, bothResolved coords r = true ∧
      (m.city = r.from_city ∨ m.city = r.to_city) := by
  have hmk := createMapLoop_markers coords filtered []
  have hmem : markerPair m ∈ dedupFirst (roleSeq filtered coords) [] := by
    rw [← hmk]
    exact List.mem_map_of_mem _ hm
  have hfind := (dedupFirst_find _ _ _ hmem).2
  have hseq : (m.city, m.style) ∈ roleSeq filtered coords :=
    List.mem_of_find?_eq_some hfind
  unfold roleSeq at hseq
  rw [List.mem_flatMap] at hseq
  obtain ⟨r, hr, hpair⟩ := hseq
  rw [List.mem_filter] at hr
  refine ⟨r, hr.1, hr.2, ?_⟩
  rcases List.mem_cons.mp hpair with he | he
  · exact Or.inl (congrArg Prod.fst he)
  · rcases List.mem_cons.mp he with he' | he'
    · exact Or.inr (congrArg Prod.fst he')
    · cases he'

/-- Witness for C10: the origin marker of the one rendered route comes
with that route. -/
theorem marker_requires_rendered_route_witness :
    ∃ r ∈ [Route.mk "r1" "A" "B" 100, Route.mk "r3" "A" "C" 300],
      bothResolved [("A", ((1 : Rat), (2 : Rat))), ("B", ((3 : Rat), (4 : Rat)))] r = true ∧
        ((Marker.mk "A" ((1 : Rat), (2 : Rat)) Style.origin).city = r.from_city ∨
          (Marker.mk "A" ((1 : Rat), (2 : Rat)) Style.origin).city = r.to_city) :=
  marker_requires_rendered_route
    [Route.mk "r1" "A" "B" 100, Route.mk "r3" "A" "C" 300]
    [("A", ((1 : Rat), (2 : Rat))), ("B", ((3 : Rat), (4 : Rat)))]
    (Marker.mk "A" ((1 : Rat), (2 : Rat)) Style.origin) (by decide)

/-! ### Properties of the session flow (claims C2, C8) -/

/-- Claim C8: the tail of `main` shows the informational warning exactly
when the filtered set is empty, and in that case no map is handed to the
renderer, no geocoding executes and the state is untouched. -/
theorem empty_filtered_warns (w : String → NetOutcome) (st : AppState)
    (filtered : List Route) (buildClicked resetClicked : Bool) :
    ((mainStep w st filtered buildClicked resetClicked).2.warned = true ↔
        filtered = []) ∧
      (filtered = [] →
        (mainStep w st filtered buildClicked resetClicked).2.renderedMap =
            none ∧
          (mainStep w st filtered buildClicked resetClicked).2.executions =
            0 ∧
          (mainStep w st filtered buildClicked resetClicked).1 = st) := by
  cases filtered with
  | nil => simp [mainStep]
  | cons x xs =>
    refine ⟨by simp [mainStep], fun he => absurd he (by simp)⟩

/-- Witness for C8: on the empty filtered set the warning fires, nothing
renders and nothing geocodes. -/
theorem empty_filtered_warns_witness :
    (mainStep (fun _ => NetOutcome.error) initState [] false false).2.warned
        = true ∧
      (mainStep (fun _ => NetOutcome.error) initState [] false
          false).2.renderedMap = none ∧
      (mainStep (fun _ => NetOutcome.error) initState [] false
          false).2.executions = 0 ∧
      (mainStep (fun _ => NetOutcome.error) initState [] false false).1 =
        initState :=
  ⟨(empty_filtered_warns (fun _ => NetOutcome.error) initState [] false
      false).1.mpr rfl,
    (empty_filtered_warns (fun _ => NetOutcome.error) initState [] false
      false).2 rfl⟩

/-- Claim C2 (amended): the reset action clears the session's cached
coordinates (`map_built = False`, `coordinates` deleted) and the next
build re-invokes `geocode_all_cities`; but that function is memoized
process-wide by its dataframe argument, so a rebuild of a filtered set
already in the memo cache reuses the memoized coordinates and performs
zero geocode executions. -/
theorem reset_then_build_uses_memo (w : String → NetOutcome)
    (st : AppState) (df : List Route) (m : CoordMap) (hdf : df ≠ [])
    (hcache : alookup df st.cacheA = some m) :
    ((mainStep w st df false true).1.sess.coordinates = none ∧
        (mainStep w st df false true).1.sess.map_built = false) ∧
      ((mainStep w (mainStep w st df false true).1 df true
          false).2.executions = 0 ∧
        (mainStep w (mainStep w st df false true).1 df true
          false).1.sess.coordinates = some m) := by
  have hlen : 0 < df.length := List.length_pos.mpr hdf
  have hreset : (mainStep w st df false true).1 = resetAction st := by
    by_cases hb : st.sess.map_built = true
    · simp [mainStep, hlen, hb, buildAction, resetAction]
    · simp [mainStep, hlen, hb, resetAction]
  refine ⟨by rw [hreset]; exact ⟨rfl, rfl⟩, ?_⟩
  rw [hreset]
  have hcache' : alookup df (resetAction st).cacheA = some m := hcache
  simp [mainStep, hlen, buildAction, resetAction, geocodeAllCached, hcache']
  rw [hcache]
  exact ⟨rfl, rfl⟩

/-- Witness for C2 (amended): a state whose memo cache already holds the
table gets its coordinates back with zero executions after reset. -/
theorem reset_then_build_uses_memo_witness :
    ((mainStep (fun _ => NetOutcome.error)
        (AppState.mk (Session.mk true (some [("A", ((1 : Rat), (2 : Rat)))]))
          [([Route.mk "r1" "A" "A" 5], [("A", ((1 : Rat), (2 : Rat)))])] [])
        [Route.mk "r1" "A" "A" 5] false true).1.sess.coordinates = none ∧
      (mainStep (fun _ => NetOutcome.error)
        (AppState.mk (Session.mk true (some [("A", ((1 : Rat), (2 : Rat)))]))
          [([Route.mk "r1" "A" "A" 5], [("A", ((1 : Rat), (2 : Rat)))])] [])
        [Route.mk "r1" "A" "A" 5] false true).1.sess.map_built = false) ∧
    ((mainStep (fun _ => NetOutcome.error)
        (mainStep (fun _ => NetOutcome.error)
          (AppState.mk (Session.mk true (some [("A", ((1 : Rat), (2 : Rat)))]))
            [([Route.mk "r1" "A" "A" 5], [("A", ((1 : Rat), (2 : Rat)))])] [])
          [Route.mk "r1" "A" "A" 5] false true).1
        [Route.mk "r1" "A" "A" 5] true false).2.executions = 0 ∧
      (mainStep (fun _ => NetOutcome.error)
        (mainStep (fun _ => NetOutcome.error)
          (AppState.mk (Session.mk true (some [("A", ((1 : Rat), (2 : Rat)))]))
            [([Route.mk "r1" "A" "A" 5], [("A", ((1 : Rat), (2 : Rat)))])] [])
          [Route.mk "r1" "A" "A" 5] false true).1
        [Route.mk "r1" "A" "A" 5] true false).1.sess.coordinates =
        some [("A", ((1 : Rat), (2 : Rat)))]) :=
  reset_then_build_uses_memo (fun _ => NetOutcome.error)
    (AppState.mk (Session.mk true (some [("A", ((1 : Rat), (2 : Rat)))]))
      [([Route.mk "r1" "A" "A" 5], [("A", ((1 : Rat), (2 : Rat)))])] [])
    [Route.mk "r1" "A" "A" 5] [("A", ((1 : Rat), (2 : Rat)))]
    (by decide) (by decide)

/-- Counterexample to C2 as stated: a fresh session builds (two geocode
executions), resets (session coordinates cleared), and builds again —
the second build performs zero geocode executions, reusing the memoized
coordinates instead of re-resolving. -/
theorem reset_then_build_no_regeocode_cex :
    (mainStep (fun _ => NetOutcome.response 200 [GeoEntry.mk (some 55) (some 37)])
        initState [Route.mk "r1" "A" "B" 100] true false).2.executions = 2 ∧
      (mainStep (fun _ => NetOutcome.response 200 [GeoEntry.mk (some 55) (some 37)])
        (mainStep (fun _ => NetOutcome.response 200 [GeoEntry.mk (some 55) (some 37)])
          initState [Route.mk "r1" "A" "B" 100] true false).1
        [Route.mk "r1" "A" "B" 100] false true).1.sess.coordinates = none ∧
      (mainStep (fun _ => NetOutcome.response 200 [GeoEntry.mk (some 55) (some 37)])
        (mainStep (fun _ => NetOutcome.response 200 [GeoEntry.mk (some 55) (some 37)])
          (mainStep (fun _ => NetOutcome.response 200 [GeoEntry.mk (some 55) (some 37)])
            initState [Route.mk "r1" "A" "B" 100] true false).1
          [Route.mk "r1" "A" "B" 100] false true).1
        [Route.mk "r1" "A" "B" 100] true false).2.executions = 0 := by
  refine ⟨by decide, by decide, by decide⟩

/-- Counterexample to C5 as stated: for the one-route table with
`avg_price = 1000.5`, the slider's upper bound `int(1000.5) = 1000` is
not the observed maximum, and the default full-range selection
`[1000, 1000]` drops the route instead of keeping every route. -/
theorem sliderBounds_trunc_cex :
    ((sliderBounds [Route.mk "r" "A" "B" (mkRat 2001 2)]).2 : Rat) ≠
        maxPrice [Route.mk "r" "A" "B" (mkRat 2001 2)] ∧
      filteredDf [Route.mk "r" "A" "B" (mkRat 2001 2)]
          (sliderBounds [Route.mk "r" "A" "B" (mkRat 2001 2)]).1
          (sliderBounds [Route.mk "r" "A" "B" (mkRat 2001 2)]).2 [] [] ≠
        [Route.mk "r" "A" "B" (mkRat 2001 2)] := by
  constructor
  · decide
  · decide

end RoutesMap
